import Mathlib

/-!
Verification development for the dokploy-mcp adapter (src/index.ts).

The embedding models the request Transport (`dokployRequest`), the operation
registry built by `createServer` (63 `registerTool` calls), and the dispatch
contract. JavaScript values passed to `JSON.stringify` and string templates
are modelled by `JsonValue`; the `fetch` collaborator is modelled by an
oracle `Upstream` mapping the outbound request to either a network failure
(the promise rejects) or a response carrying a status code, the body text
(`response.text()`), and the body parsed as JSON when it is valid JSON
(`response.json()`; `none` when parsing would reject).
-/

namespace Dokploy

/-- A JavaScript value as it appears in handler bodies and API responses.
`undefined` models the JavaScript `undefined` that destructuring yields for an
absent optional argument. -/
inductive JsonValue where
  | null
  | undefined
  | bool (b : Bool)
  | num (n : Int)
  | str (s : String)
  | arr (items : List JsonValue)
  | obj (fields : List (String × JsonValue))

/-- JavaScript truthiness, as tested by `body ? ... : ...`, `x || d`,
and `if (applicationId)`. -/
def JsonValue.truthy : JsonValue → Bool
  | .null => false
  | .undefined => false
  | .bool b => b
  | .num n => n != 0
  | .str s => s != ""
  | .arr _ => true
  | .obj _ => true

/-- JavaScript `x || d`: the left operand when truthy, otherwise the fallback
(as in `description || ""` and `env || {}` in the handlers). -/
def jsOr (v fallback : JsonValue) : JsonValue :=
  if v.truthy then v else fallback

/-- One hex digit, lowercase, as produced by `JSON.stringify` control-character
escapes. -/
def hexDigitLower (n : Nat) : String :=
  if n < 10 then toString n
  else if n = 10 then "a"
  else if n = 11 then "b"
  else if n = 12 then "c"
  else if n = 13 then "d"
  else if n = 14 then "e"
  else "f"

/-- One hex digit, uppercase, as produced by `URLSearchParams` percent
escapes. -/
def hexDigitUpper (n : Nat) : String :=
  if n < 10 then toString n
  else if n = 10 then "A"
  else if n = 11 then "B"
  else if n = 12 then "C"
  else if n = 13 then "D"
  else if n = 14 then "E"
  else "F"

/-- `JSON.stringify` escaping of one character inside a string literal. -/
def escapeJsonChar (c : Char) : String :=
  if c = '"' then "\\\""
  else if c = '\\' then "\\\\"
  else if c = '\n' then "\\n"
  else if c = '\r' then "\\r"
  else if c = '\t' then "\\t"
  else if c = '\x08' then "\\b"
  else if c = '\x0c' then "\\f"
  else if c.toNat < 32 then
    "\\u00" ++ hexDigitLower (c.toNat / 16) ++ hexDigitLower (c.toNat % 16)
  else String.singleton c

/-- `JSON.stringify` rendering of a string: quoted and escaped. -/
def jsonQuote (s : String) : String :=
  "\"" ++ String.join (s.toList.map escapeJsonChar) ++ "\""

mutual

/-- Compact `JSON.stringify(v)` (no indent), used by the Transport on the
request body. `none` corresponds to the JavaScript result `undefined`
(top-level `undefined`); `undefined` object fields are dropped and
`undefined` array items render as `null`, as in JavaScript. -/
def JsonValue.stringifyJson : JsonValue → Option String
  | .undefined => none
  | .null => some "null"
  | .bool b => some (cond b "true" "false")
  | .num n => some (toString n)
  | .str s => some (jsonQuote s)
  | .arr items => some ("[" ++ String.intercalate "," (stringifyItems items) ++ "]")
  | .obj fields => some ("\x7b" ++ String.intercalate "," (stringifyFields fields) ++ "\x7d")

/-- Array items for compact `JSON.stringify`. -/
def stringifyItems : List JsonValue → List String
  | [] => []
  | v :: rest => (v.stringifyJson).getD "null" :: stringifyItems rest

/-- Object entries for compact `JSON.stringify`; `undefined` values drop the
field. -/
def stringifyFields : List (String × JsonValue) → List String
  | [] => []
  | (k, v) :: rest =>
    match v.stringifyJson with
    | none => stringifyFields rest
    | some s => (jsonQuote k ++ ":" ++ s) :: stringifyFields rest

end

/-- The 2-space indentation prefix at nesting depth `d`, as produced by
`JSON.stringify(v, null, 2)`. -/
def indentOf (d : Nat) : String :=
  String.join (List.replicate d "  ")

mutual

/-- Pretty `JSON.stringify(v, null, 2)` at nesting depth `d`. -/
def JsonValue.prettyAux : Nat → JsonValue → Option String
  | _, .undefined => none
  | _, .null => some "null"
  | _, .bool b => some (cond b "true" "false")
  | _, .num n => some (toString n)
  | _, .str s => some (jsonQuote s)
  | d, .arr items =>
    match prettyItems (d + 1) items with
    | [] => some "[]"
    | ls => some ("[\n" ++ String.intercalate ",\n" (ls.map (fun l => indentOf (d + 1) ++ l))
        ++ "\n" ++ indentOf d ++ "]")
  | d, .obj fields =>
    match prettyFields (d + 1) fields with
    | [] => some "\x7b\x7d"
    | ls => some ("\x7b\n" ++ String.intercalate ",\n" (ls.map (fun l => indentOf (d + 1) ++ l))
        ++ "\n" ++ indentOf d ++ "\x7d")

/-- Array items for pretty `JSON.stringify`. -/
def prettyItems : Nat → List JsonValue → List String
  | _, [] => []
  | d, v :: rest => (JsonValue.prettyAux d v).getD "null" :: prettyItems d rest

/-- Object entries for pretty `JSON.stringify`; `undefined` values drop the
field. -/
def prettyFields : Nat → List (String × JsonValue) → List String
  | _, [] => []
  | d, (k, v) :: rest =>
    match JsonValue.prettyAux d v with
    | none => prettyFields d rest
    | some s => (jsonQuote k ++ ": " ++ s) :: prettyFields d rest

end

/-- `JSON.stringify(v, null, 2)` as it appears interpolated into the handler
message templates; interpolating the JavaScript `undefined` result renders as
the text `undefined`. -/
def JsonValue.stringifyPretty (v : JsonValue) : String :=
  (v.prettyAux 0).getD "undefined"

mutual

/-- JavaScript string-template coercion of a value, as in
`` `/application.all?projectId=${projectId}` ``. -/
def JsonValue.interp : JsonValue → String
  | .undefined => "undefined"
  | .null => "null"
  | .bool b => cond b "true" "false"
  | .num n => toString n
  | .str s => s
  | .arr items => String.intercalate "," (interpItems items)
  | .obj _ => "[object Object]"

/-- Array items under JavaScript `Array.prototype.toString`: `null` and
`undefined` items render empty. -/
def interpItems : List JsonValue → List String
  | [] => []
  | .null :: rest => "" :: interpItems rest
  | .undefined :: rest => "" :: interpItems rest
  | v :: rest => v.interp :: interpItems rest

end

/-- The connection configuration (`configSchema`): instance URL, API token,
and debug flag. Debug logging is observability only and is not modelled. -/
structure Config where
  dokployUrl : String
  apiToken : String
  debug : Bool

/-- The outbound HTTP request handed to `fetch` by `dokployRequest`. -/
structure FetchRequest where
  url : String
  method : String
  headers : List (String × String)
  body : Option String

/-- The remote response as observed through the `fetch` Response object:
`status`, the body as text (`response.text()`), and the body parsed as JSON
(`response.json()`): `some v` exactly when the body text is valid JSON
denoting `v`, and `none` when `response.json()` would reject. -/
structure FetchResponse where
  status : Nat
  bodyText : String
  bodyJson : Option JsonValue

/-- `response.ok`: the status code lies in the 200-299 success range. -/
def FetchResponse.ok (r : FetchResponse) : Bool :=
  decide (200 ≤ r.status) && decide (r.status < 300)

/-- The outcome of the `fetch` promise: a network failure (DNS failure,
connection refused, timeout — the promise rejects and no response exists)
or a response from the remote. -/
inductive FetchOutcome where
  | network (msg : String)
  | response (r : FetchResponse)

/-- The external HTTP collaborator: what `fetch` yields for each request. -/
abbrev Upstream := FetchRequest → FetchOutcome

/-- The error thrown out of `dokployRequest`:
`upstreamError` is the `Error` constructed in the non-ok branch, carrying the
status code and the error text read from the response body;
`transportError` is the rejection of the `fetch` promise itself, rethrown
unchanged by the catch block;
`jsonParseError` is the rejection of `response.json()` on a success response
whose body is not valid JSON, likewise rethrown unchanged. -/
inductive DokployError where
  | upstreamError (status : Nat) (errorText : String)
  | transportError (msg : String)
  | jsonParseError

/-- The fixed header set attached to every request: a content-type
declaration, an accept header, and the configured credential in the single
static `x-api-key` header. -/
def dokployHeaders (config : Config) : List (String × String) :=
  [("Content-Type", "application/json"),
   ("Accept", "application/json"),
   ("x-api-key", config.apiToken)]

/-- `body ? JSON.stringify(body) : undefined`: the request payload is the
compact JSON serialization of `body` when `body` is truthy, and absent
otherwise. -/
def serializeBody : Option JsonValue → Option String
  | none => none
  | some b => if b.truthy then b.stringifyJson else none

/-- The request `dokployRequest` hands to `fetch`: the URL is
`config.dokployUrl ++ "/api" ++ endpoint`, the headers are the fixed set,
and the body is the serialized payload. -/
def dokployFetchRequest (config : Config) (endpoint : String) (method : String)
    (body : Option JsonValue) : FetchRequest :=
  { url := config.dokployUrl ++ "/api" ++ endpoint
    method := method
    headers := dokployHeaders config
    body := serializeBody body }

/-- The Transport (`dokployRequest`): performs one `fetch` of the constructed
request; a rejected `fetch` propagates as a `transportError`; a non-ok
response fails with `upstreamError status bodyText`; an ok response is
parsed as JSON (`jsonParseError` when parsing rejects) and returned. -/
def dokployRequest (config : Config) (endpoint : String) (method : String)
    (body : Option JsonValue) (fetch : Upstream) : Except DokployError JsonValue :=
  match fetch (dokployFetchRequest config endpoint method body) with
  | .network msg => .error (.transportError msg)
  | .response r =>
    if r.ok then
      match r.bodyJson with
      | some data => .ok data
      | none => .error .jsonParseError
    else
      .error (.upstreamError r.status r.bodyText)

/-- The validated argument object handed to a handler, as an association
list of named JavaScript values (the parse result of the zod schema). -/
abbrev Args := List (String × JsonValue)

/-- JavaScript destructuring of one named argument: the bound value, or
`undefined` when the property is absent. -/
def argVal (args : Args) (k : String) : JsonValue :=
  (args.lookup k).getD .undefined

/-- One invocation of the Transport as recorded in a handler run: the
relative endpoint, the HTTP method, and the body value passed to
`dokployRequest`. -/
structure ToolCall where
  endpoint : String
  method : String
  body : Option JsonValue

/-- One entry of a tool result `content` array. -/
structure TextContent where
  type : String
  text : String

/-- The normalized result payload a handler returns. -/
structure ToolResult where
  content : List TextContent

/-- A complete handler invocation: the Transport calls it issued, in order,
and its outcome (a result payload, or the error it let propagate). -/
structure HandlerRun where
  calls : List ToolCall
  result : Except DokployError ToolResult

/-- The shared shape of every handler in `createServer`: `await` one
`dokployRequest` and wrap the formatted data in a single text content entry.
The recorded trace is the one Transport invocation this run performs. -/
def runOne (config : Config) (endpoint method : String) (body : Option JsonValue)
    (format : JsonValue → String) (fetch : Upstream) : HandlerRun :=
  { calls := [⟨endpoint, method, body⟩]
    result := (dokployRequest config endpoint method body fetch).map
      (fun data => { content := [⟨"text", format data⟩] }) }

/-- The zod field types occurring in the tool input schemas. The `email`
format refinement of `z.string().email()` is modelled as a plain string
check (the refinement only rejects more inputs). -/
inductive FieldType where
  | string
  | number
  | boolean
  | email
  | enumOf (choices : List String)
  | recordOfString

/-- Whether a declared field is required, optional, or defaulted
(`.optional()` / `.default(v)` in the zod chain). -/
inductive FieldReq where
  | required
  | optional
  | withDefault (v : JsonValue)

/-- One declared input-schema field. -/
structure FieldSpec where
  name : String
  type : FieldType
  req : FieldReq

/-- Does a present value satisfy the declared field type? -/
def FieldType.accepts : FieldType → JsonValue → Bool
  | .string, .str _ => true
  | .email, .str _ => true
  | .number, .num _ => true
  | .boolean, .bool _ => true
  | .enumOf cs, .str s => cs.contains s
  | .recordOfString, .obj fields =>
    fields.all (fun f => match f.2 with | .str _ => true | _ => false)
  | _, _ => false

/-- A raw property is treated as present only when it is bound to a value
other than `undefined` (zod treats an explicit `undefined` as absent). -/
def presentVal : Option JsonValue → Option JsonValue
  | some .undefined => none
  | some v => some v
  | none => none

/-- Modelled from the spec: zod validation of one declared field of the
dispatcher's input contract against the raw arguments. A missing required
field or a present ill-typed value is an issue naming the field; an absent
defaulted field binds its default; an absent optional field binds nothing. -/
def validateField (raw : Args) (f : FieldSpec) : Except String (Option (String × JsonValue)) :=
  match presentVal (raw.lookup f.name) with
  | none =>
    match f.req with
    | .required => .error (f.name ++ ": Required")
    | .optional => .ok none
    | .withDefault d => .ok (some (f.name, d))
  | some v =>
    if f.type.accepts v then .ok (some (f.name, v))
    else .error (f.name ++ ": Invalid input")

/-- Modelled from the spec: the dispatcher (MCP SDK, not part of src/)
validates the raw arguments against the operation's declared input contract
before the handler runs, collecting every field-level issue; on success it
binds exactly the declared fields (unknown keys are stripped). -/
def validateArgs (schema : List FieldSpec) (raw : Args) : Except (List String) Args :=
  match (schema.map (validateField raw)).filterMap
      (fun c => match c with | .error e => some e | .ok _ => none) with
  | [] => .ok ((schema.map (validateField raw)).filterMap
      (fun c => match c with | .ok b => b | .error _ => none))
  | e :: es => .error (e :: es)

/-- `application/x-www-form-urlencoded` escaping of one UTF-8 byte, as
`URLSearchParams.toString()` performs it. -/
def formEncodeByte (b : UInt8) : String :=
  let n := b.toNat
  if (48 ≤ n ∧ n ≤ 57) ∨ (65 ≤ n ∧ n ≤ 90) ∨ (97 ≤ n ∧ n ≤ 122)
      ∨ n = 42 ∨ n = 45 ∨ n = 46 ∨ n = 95 then
    String.singleton (Char.ofNat n)
  else if n = 32 then "+"
  else "%" ++ hexDigitUpper (n / 16) ++ hexDigitUpper (n % 16)

/-- `application/x-www-form-urlencoded` escaping of a string over its UTF-8
bytes. -/
def formEncode (s : String) : String :=
  String.join (s.toUTF8.toList.map formEncodeByte)

/-- `URLSearchParams.toString()`: the appended pairs, each form-encoded and
joined as `k=v` with `&`. -/
def urlSearchParamsString (ps : List (String × String)) : String :=
  String.intercalate "&" (ps.map (fun p => formEncode p.1 ++ "=" ++ formEncode p.2))

/-- The endpoint computed by the `list-deployments` handler: start from
`/deployment.all`, append `applicationId` and then `composeId` to a
`URLSearchParams` when each is truthy, and append the query string when it
is nonempty. -/
def listDeploymentsEndpoint (args : Args) : String :=
  let params :=
    (if (argVal args "applicationId").truthy then
      [("applicationId", (argVal args "applicationId").interp)] else [])
    ++ (if (argVal args "composeId").truthy then
      [("composeId", (argVal args "composeId").interp)] else [])
  let qs := urlSearchParamsString params
  if qs = "" then "/deployment.all" else "/deployment.all" ++ "?" ++ qs

/-- A query string built by template interpolation, as in
`` `/application.logs?applicationId=${applicationId}&lines=${lines}` ``. -/
def queryOf : List (String × String) → Args → Bool → String
  | [], _, _ => ""
  | (k, a) :: rest, args, isFirst =>
    (cond isFirst "?" "&") ++ k ++ "=" ++ (argVal args a).interp ++ queryOf rest args false

/-- How a tool's endpoint string is built from its arguments: a fixed path,
a path with interpolated query parameters (each pair is the literal key and
the argument name interpolated as its value), or the `list-deployments`
`URLSearchParams` construction. -/
inductive EndpointSpec where
  | fixed (path : String)
  | withQuery (path : String) (params : List (String × String))
  | deploymentAll

/-- One field of a POST body object literal: the shorthand `name` binding
the argument of the same name, or `name: name || fallback`. -/
inductive BodyField where
  | direct (name : String)
  | orDefault (name : String) (fallback : JsonValue)

/-- How a handler formats the data returned by the Transport into its text
content: the pretty JSON directly, a fixed message prefix followed by the
pretty JSON, a constant message ignoring the data, or the raw string when
the data is a string and the pretty JSON otherwise (the logs handlers). -/
inductive FormatSpec where
  | rawJson
  | prefixed (banner : String)
  | constText (msg : String)
  | textOrJson

/-- One `registerTool` declaration: the registered name and title, the
declared input schema, and the handler data (endpoint, method, body object,
and message format). -/
structure ToolDesc where
  name : String
  title : String
  schema : List FieldSpec
  endpoint : EndpointSpec
  method : String
  body : Option (List BodyField)
  format : FormatSpec

/-- Evaluate a tool's endpoint specification at its arguments. -/
def endpointOf : EndpointSpec → Args → String
  | .fixed p, _ => p
  | .withQuery p qs, args => p ++ queryOf qs args true
  | .deploymentAll, args => listDeploymentsEndpoint args

/-- Evaluate a tool's body object literal at its arguments (`none` for the
GET handlers, which pass no body). -/
def bodyOf : Option (List BodyField) → Args → Option JsonValue
  | none, _ => none
  | some fs, args =>
    some (.obj (fs.map (fun bf =>
      match bf with
      | .direct n => (n, argVal args n)
      | .orDefault n fallback => (n, jsOr (argVal args n) fallback))))

/-- Evaluate a tool's message format on the data the Transport returned. -/
def formatOf : FormatSpec → JsonValue → String
  | .rawJson, v => v.stringifyPretty
  | .prefixed banner, v => banner ++ v.stringifyPretty
  | .constText msg, _ => msg
  | .textOrJson, v =>
    match v with
    | .str s => s
    | v => v.stringifyPretty

/-- An operation descriptor of the registry: unique name, title, input
contract, and the handler closing over the configuration and the `fetch`
collaborator. -/
structure Tool where
  name : String
  title : String
  schema : List FieldSpec
  handler : Args → Config → Upstream → HandlerRun

/-- Build the registered tool from its declaration: the handler evaluates
the endpoint and body at its validated arguments, performs the one
Transport call, and formats the outcome. -/
def mkTool (d : ToolDesc) : Tool :=
  { name := d.name
    title := d.title
    schema := d.schema
    handler := fun args config fetch =>
      runOne config (endpointOf d.endpoint args) d.method (bodyOf d.body args)
        (formatOf d.format) fetch }

/-- The caller-visible outcome of a dispatched call: a tool result, a
structured validation error naming the violated fields, or the API error the
handler let propagate. -/
inductive DispatchResult where
  | ok (r : ToolResult)
  | validationError (issues : List String)
  | apiError (e : DokployError)

/-- A dispatched call: the Transport calls made and the outcome. -/
structure DispatchRun where
  calls : List ToolCall
  result : DispatchResult

/-- Modelled from the spec: the dispatcher (MCP SDK, not part of src/)
validates the raw arguments against the operation's input contract and only
then invokes the handler; a validation failure is reported to the caller
and the handler never runs, so no Transport call is made. -/
def dispatchTool (t : Tool) (raw : Args) (config : Config) (fetch : Upstream) : DispatchRun :=
  match validateArgs t.schema raw with
  | .error issues => { calls := [], result := .validationError issues }
  | .ok args =>
    let run := t.handler args config fetch
    { calls := run.calls
      result := match run.result with
        | .ok r => .ok r
        | .error e => .apiError e }

/-- The `list-projects` tool declaration. -/
def listProjectsDesc : ToolDesc :=
  { name := "list-projects"
    title := "List Projects"
    schema := []
    endpoint := (EndpointSpec.fixed "/project.all")
    method := "GET"
    body := none
    format := FormatSpec.rawJson }

/-- The `create-project` tool declaration. -/
def createProjectDesc : ToolDesc :=
  { name := "create-project"
    title := "Create Project"
    schema := [⟨"name", FieldType.string, FieldReq.required⟩,
      ⟨"description", FieldType.string, FieldReq.optional⟩]
    endpoint := (EndpointSpec.fixed "/project.create")
    method := "POST"
    body := (some [BodyField.direct "name",
      BodyField.orDefault "description" (JsonValue.str "")])
    format := (FormatSpec.prefixed "âœ… Project created successfully!\n\n") }

/-- The `delete-project` tool declaration. -/
def deleteProjectDesc : ToolDesc :=
  { name := "delete-project"
    title := "Delete Project"
    schema := [⟨"projectId", FieldType.string, FieldReq.required⟩]
    endpoint := (EndpointSpec.fixed "/project.remove")
    method := "POST"
    body := (some [BodyField.direct "projectId"])
    format := (FormatSpec.constText "âœ… Project deleted successfully!") }

/-- The `list-applications` tool declaration. -/
def listApplicationsDesc : ToolDesc :=
  { name := "list-applications"
    title := "List Applications"
    schema := [⟨"projectId", FieldType.string, FieldReq.required⟩]
    endpoint := (EndpointSpec.withQuery "/application.all" [("projectId", "projectId")])
    method := "GET"
    body := none
    format := FormatSpec.rawJson }

/-- The `create-application` tool declaration. -/
def createApplicationDesc : ToolDesc :=
  { name := "create-application"
    title := "Create Application"
    schema := [⟨"projectId", FieldType.string, FieldReq.required⟩,
      ⟨"name", FieldType.string, FieldReq.required⟩,
      ⟨"appType", (FieldType.enumOf ["docker", "git", "github"]), (FieldReq.withDefault (JsonValue.str "github"))⟩,
      ⟨"repository", FieldType.string, FieldReq.optional⟩,
      ⟨"branch", FieldType.string, (FieldReq.withDefault (JsonValue.str "main"))⟩,
      ⟨"buildPath", FieldType.string, (FieldReq.withDefault (JsonValue.str "/"))⟩,
      ⟨"dockerfile", FieldType.string, FieldReq.optional⟩,
      ⟨"env", FieldType.recordOfString, FieldReq.optional⟩]
    endpoint := (EndpointSpec.fixed "/application.create")
    method := "POST"
    body := (some [BodyField.direct "projectId",
      BodyField.direct "name",
      BodyField.direct "appType",
      BodyField.direct "repository",
      BodyField.direct "branch",
      BodyField.direct "buildPath",
      BodyField.direct "dockerfile",
      BodyField.orDefault "env" (JsonValue.obj [])])
    format := (FormatSpec.prefixed "âœ… Application created successfully!\n\n") }

/-- The `deploy-application` tool declaration. -/
def deployApplicationDesc : ToolDesc :=
  { name := "deploy-application"
    title := "Deploy Application"
    schema := [⟨"applicationId", FieldType.string, FieldReq.required⟩]
    endpoint := (EndpointSpec.fixed "/application.deploy")
    method := "POST"
    body := (some [BodyField.direct "applicationId"])
    format := (FormatSpec.prefixed "ðŸš€ Deployment started!\n\n") }

/-- The `stop-application` tool declaration. -/
def stopApplicationDesc : ToolDesc :=
  { name := "stop-application"
    title := "Stop Application"
    schema := [⟨"applicationId", FieldType.string, FieldReq.required⟩]
    endpoint := (EndpointSpec.fixed "/application.stop")
    method := "POST"
    body := (some [BodyField.direct "applicationId"])
    format := (FormatSpec.constText "â¸ï¸ Application stopped successfully!") }

/-- The `start-application` tool declaration. -/
def startApplicationDesc : ToolDesc :=
  { name := "start-application"
    title := "Start Application"
    schema := [⟨"applicationId", FieldType.string, FieldReq.required⟩]
    endpoint := (EndpointSpec.fixed "/application.start")
    method := "POST"
    body := (some [BodyField.direct "applicationId"])
    format := (FormatSpec.constText "â–¶ï¸ Application started successfully!") }

/-- The `restart-application` tool declaration. -/
def restartApplicationDesc : ToolDesc :=
  { name := "restart-application"
    title := "Restart Application"
    schema := [⟨"applicationId", FieldType.string, FieldReq.required⟩]
    endpoint := (EndpointSpec.fixed "/application.restart")
    method := "POST"
    body := (some [BodyField.direct "applicationId"])
    format := (FormatSpec.constText "ðŸ”„ Application restarted successfully!") }

/-- The `delete-application` tool declaration. -/
def deleteApplicationDesc : ToolDesc :=
  { name := "delete-application"
    title := "Delete Application"
    schema := [⟨"applicationId", FieldType.string, FieldReq.required⟩]
    endpoint := (EndpointSpec.fixed "/application.remove")
    method := "POST"
    body := (some [BodyField.direct "applicationId"])
    format := (FormatSpec.constText "âœ… Application deleted successfully!") }

/-- The `create-database` tool declaration. -/
def createDatabaseDesc : ToolDesc :=
  { name := "create-database"
    title := "Create Database"
    schema := [⟨"projectId", FieldType.string, FieldReq.required⟩,
      ⟨"name", FieldType.string, FieldReq.required⟩,
      ⟨"type", (FieldType.enumOf ["postgres", "mysql", "mongodb", "redis", "mariadb"]), FieldReq.required⟩,
      ⟨"databaseName", FieldType.string, FieldReq.optional⟩,
      ⟨"username", FieldType.string, FieldReq.optional⟩,
      ⟨"password", FieldType.string, FieldReq.optional⟩]
    endpoint := (EndpointSpec.fixed "/database.create")
    method := "POST"
    body := (some [BodyField.direct "projectId",
      BodyField.direct "name",
      BodyField.direct "type",
      BodyField.direct "databaseName",
      BodyField.direct "username",
      BodyField.direct "password"])
    format := (FormatSpec.prefixed "âœ… Database created successfully!\n\n") }

/-- The `list-databases` tool declaration. -/
def listDatabasesDesc : ToolDesc :=
  { name := "list-databases"
    title := "List Databases"
    schema := [⟨"projectId", FieldType.string, FieldReq.required⟩]
    endpoint := (EndpointSpec.withQuery "/database.all" [("projectId", "projectId")])
    method := "GET"
    body := none
    format := FormatSpec.rawJson }

/-- The `list-composes` tool declaration. -/
def listComposesDesc : ToolDesc :=
  { name := "list-composes"
    title := "List Docker Compose Applications"
    schema := [⟨"projectId", FieldType.string, FieldReq.required⟩]
    endpoint := (EndpointSpec.withQuery "/compose.all" [("projectId", "projectId")])
    method := "GET"
    body := none
    format := FormatSpec.rawJson }

/-- The `create-compose` tool declaration. -/
def createComposeDesc : ToolDesc :=
  { name := "create-compose"
    title := "Create Docker Compose Application"
    schema := [⟨"projectId", FieldType.string, FieldReq.required⟩,
      ⟨"name", FieldType.string, FieldReq.required⟩,
      ⟨"appName", FieldType.string, FieldReq.optional⟩,
      ⟨"description", FieldType.string, FieldReq.optional⟩,
      ⟨"dockerComposeFile", FieldType.string, FieldReq.optional⟩,
      ⟨"dockerComposeFilePath", FieldType.string, FieldReq.optional⟩,
      ⟨"repository", FieldType.string, FieldReq.optional⟩,
      ⟨"branch", FieldType.string, (FieldReq.withDefault (JsonValue.str "main"))⟩,
      ⟨"buildPath", FieldType.string, (FieldReq.withDefault (JsonValue.str "/"))⟩,
      ⟨"env", FieldType.recordOfString, FieldReq.optional⟩]
    endpoint := (EndpointSpec.fixed "/compose.create")
    method := "POST"
    body := (some [BodyField.direct "projectId",
      BodyField.direct "name",
      BodyField.direct "appName",
      BodyField.orDefault "description" (JsonValue.str ""),
      BodyField.direct "dockerComposeFile",
      BodyField.direct "dockerComposeFilePath",
      BodyField.direct "repository",
      BodyField.direct "branch",
      BodyField.direct "buildPath",
      BodyField.orDefault "env" (JsonValue.obj [])])
    format := (FormatSpec.prefixed "âœ… Docker Compose application created successfully!\n\n") }

/-- The `deploy-compose` tool declaration. -/
def deployComposeDesc : ToolDesc :=
  { name := "deploy-compose"
    title := "Deploy Docker Compose Application"
    schema := [⟨"composeId", FieldType.string, FieldReq.required⟩]
    endpoint := (EndpointSpec.fixed "/compose.deploy")
    method := "POST"
    body := (some [BodyField.direct "composeId"])
    format := (FormatSpec.prefixed "ðŸš€ Docker Compose deployment started!\n\n") }

/-- The `stop-compose` tool declaration. -/
def stopComposeDesc : ToolDesc :=
  { name := "stop-compose"
    title := "Stop Docker Compose Application"
    schema := [⟨"composeId", FieldType.string, FieldReq.required⟩]
    endpoint := (EndpointSpec.fixed "/compose.stop")
    method := "POST"
    body := (some [BodyField.direct "composeId"])
    format := (FormatSpec.constText "â¸ï¸ Docker Compose application stopped successfully!") }

/-- The `start-compose` tool declaration. -/
def startComposeDesc : ToolDesc :=
  { name := "start-compose"
    title := "Start Docker Compose Application"
    schema := [⟨"composeId", FieldType.string, FieldReq.required⟩]
    endpoint := (EndpointSpec.fixed "/compose.start")
    method := "POST"
    body := (some [BodyField.direct "composeId"])
    format := (FormatSpec.constText "â–¶ï¸ Docker Compose application started successfully!") }

/-- The `restart-compose` tool declaration. -/
def restartComposeDesc : ToolDesc :=
  { name := "restart-compose"
    title := "Restart Docker Compose Application"
    schema := [⟨"composeId", FieldType.string, FieldReq.required⟩]
    endpoint := (EndpointSpec.fixed "/compose.restart")
    method := "POST"
    body := (some [BodyField.direct "composeId"])
    format := (FormatSpec.constText "ðŸ”„ Docker Compose application restarted successfully!") }

/-- The `delete-compose` tool declaration. -/
def deleteComposeDesc : ToolDesc :=
  { name := "delete-compose"
    title := "Delete Docker Compose Application"
    schema := [⟨"composeId", FieldType.string, FieldReq.required⟩]
    endpoint := (EndpointSpec.fixed "/compose.remove")
    method := "POST"
    body := (some [BodyField.direct "composeId"])
    format := (FormatSpec.constText "âœ… Docker Compose application deleted successfully!") }

/-- The `get-compose-logs` tool declaration. -/
def getComposeLogsDesc : ToolDesc :=
  { name := "get-compose-logs"
    title := "Get Docker Compose Application Logs"
    schema := [⟨"composeId", FieldType.string, FieldReq.required⟩,
      ⟨"lines", FieldType.number, (FieldReq.withDefault (JsonValue.num 100))⟩]
    endpoint := (EndpointSpec.withQuery "/compose.logs" [("composeId", "composeId"), ("lines", "lines")])
    method := "GET"
    body := none
    format := FormatSpec.textOrJson }

/-- The `get-compose-status` tool declaration. -/
def getComposeStatusDesc : ToolDesc :=
  { name := "get-compose-status"
    title := "Get Docker Compose Application Status"
    schema := [⟨"composeId", FieldType.string, FieldReq.required⟩]
    endpoint := (EndpointSpec.withQuery "/compose.status" [("composeId", "composeId")])
    method := "GET"
    body := none
    format := FormatSpec.rawJson }

/-- The `list-git-providers` tool declaration. -/
def listGitProvidersDesc : ToolDesc :=
  { name := "list-git-providers"
    title := "List Git Providers"
    schema := []
    endpoint := (EndpointSpec.fixed "/git-provider.all")
    method := "GET"
    body := none
    format := FormatSpec.rawJson }

/-- The `create-github-provider` tool declaration. -/
def createGithubProviderDesc : ToolDesc :=
  { name := "create-github-provider"
    title := "Create GitHub Provider"
    schema := [⟨"name", FieldType.string, FieldReq.required⟩,
      ⟨"githubAppName", FieldType.string, FieldReq.optional⟩,
      ⟨"githubAppId", FieldType.string, FieldReq.optional⟩,
      ⟨"githubClientId", FieldType.string, FieldReq.optional⟩,
      ⟨"githubClientSecret", FieldType.string, FieldReq.optional⟩,
      ⟨"githubInstallationId", FieldType.string, FieldReq.optional⟩,
      ⟨"githubPrivateKey", FieldType.string, FieldReq.optional⟩]
    endpoint := (EndpointSpec.fixed "/github.create")
    method := "POST"
    body := (some [BodyField.direct "name",
      BodyField.direct "githubAppName",
      BodyField.direct "githubAppId",
      BodyField.direct "githubClientId",
      BodyField.direct "githubClientSecret",
      BodyField.direct "githubInstallationId",
      BodyField.direct "githubPrivateKey"])
    format := (FormatSpec.prefixed "âœ… GitHub provider created successfully!\n\n") }

/-- The `create-gitlab-provider` tool declaration. -/
def createGitlabProviderDesc : ToolDesc :=
  { name := "create-gitlab-provider"
    title := "Create GitLab Provider"
    schema := [⟨"name", FieldType.string, FieldReq.required⟩,
      ⟨"gitlabUrl", FieldType.string, FieldReq.optional⟩,
      ⟨"applicationId", FieldType.string, FieldReq.optional⟩,
      ⟨"secret", FieldType.string, FieldReq.optional⟩,
      ⟨"redirectUrl", FieldType.string, FieldReq.optional⟩,
      ⟨"groupName", FieldType.string, FieldReq.optional⟩]
    endpoint := (EndpointSpec.fixed "/gitlab.create")
    method := "POST"
    body := (some [BodyField.direct "name",
      BodyField.direct "gitlabUrl",
      BodyField.direct "applicationId",
      BodyField.direct "secret",
      BodyField.direct "redirectUrl",
      BodyField.direct "groupName"])
    format := (FormatSpec.prefixed "âœ… GitLab provider created successfully!\n\n") }

/-- The `create-gitea-provider` tool declaration. -/
def createGiteaProviderDesc : ToolDesc :=
  { name := "create-gitea-provider"
    title := "Create Gitea Provider"
    schema := [⟨"name", FieldType.string, FieldReq.required⟩,
      ⟨"giteaUrl", FieldType.string, FieldReq.optional⟩,
      ⟨"applicationId", FieldType.string, FieldReq.optional⟩,
      ⟨"secret", FieldType.string, FieldReq.optional⟩,
      ⟨"redirectUrl", FieldType.string, FieldReq.optional⟩]
    endpoint := (EndpointSpec.fixed "/gitea.create")
    method := "POST"
    body := (some [BodyField.direct "name",
      BodyField.direct "giteaUrl",
      BodyField.direct "applicationId",
      BodyField.direct "secret",
      BodyField.direct "redirectUrl"])
    format := (FormatSpec.prefixed "âœ… Gitea provider created successfully!\n\n") }

/-- The `create-bitbucket-provider` tool declaration. -/
def createBitbucketProviderDesc : ToolDesc :=
  { name := "create-bitbucket-provider"
    title := "Create Bitbucket Provider"
    schema := [⟨"name", FieldType.string, FieldReq.required⟩,
      ⟨"bitbucketUsername", FieldType.string, FieldReq.optional⟩,
      ⟨"bitbucketAppPassword", FieldType.string, FieldReq.optional⟩,
      ⟨"bitbucketWorkspaceName", FieldType.string, FieldReq.optional⟩]
    endpoint := (EndpointSpec.fixed "/bitbucket.create")
    method := "POST"
    body := (some [BodyField.direct "name",
      BodyField.direct "bitbucketUsername",
      BodyField.direct "bitbucketAppPassword",
      BodyField.direct "bitbucketWorkspaceName"])
    format := (FormatSpec.prefixed "âœ… Bitbucket provider created successfully!\n\n") }

/-- The `list-servers` tool declaration. -/
def listServersDesc : ToolDesc :=
  { name := "list-servers"
    title := "List Servers"
    schema := []
    endpoint := (EndpointSpec.fixed "/server.all")
    method := "GET"
    body := none
    format := FormatSpec.rawJson }

/-- The `create-server` tool declaration. -/
def createServerDesc : ToolDesc :=
  { name := "create-server"
    title := "Create Server"
    schema := [⟨"name", FieldType.string, FieldReq.required⟩,
      ⟨"ipAddress", FieldType.string, FieldReq.required⟩,
      ⟨"port", FieldType.number, (FieldReq.withDefault (JsonValue.num 22))⟩,
      ⟨"username", FieldType.string, (FieldReq.withDefault (JsonValue.str "root"))⟩,
      ⟨"description", FieldType.string, FieldReq.optional⟩]
    endpoint := (EndpointSpec.fixed "/server.create")
    method := "POST"
    body := (some [BodyField.direct "name",
      BodyField.direct "ipAddress",
      BodyField.direct "port",
      BodyField.direct "username",
      BodyField.orDefault "description" (JsonValue.str "")])
    format := (FormatSpec.prefixed "âœ… Server created successfully!\n\n") }

/-- The `get-server-status` tool declaration. -/
def getServerStatusDesc : ToolDesc :=
  { name := "get-server-status"
    title := "Get Server Status"
    schema := [⟨"serverId", FieldType.string, FieldReq.required⟩]
    endpoint := (EndpointSpec.withQuery "/server.status" [("serverId", "serverId")])
    method := "GET"
    body := none
    format := FormatSpec.rawJson }

/-- The `list-users` tool declaration. -/
def listUsersDesc : ToolDesc :=
  { name := "list-users"
    title := "List Users"
    schema := []
    endpoint := (EndpointSpec.fixed "/user.all")
    method := "GET"
    body := none
    format := FormatSpec.rawJson }

/-- The `create-user` tool declaration. -/
def createUserDesc : ToolDesc :=
  { name := "create-user"
    title := "Create User"
    schema := [⟨"email", FieldType.email, FieldReq.required⟩,
      ⟨"password", FieldType.string, FieldReq.required⟩,
      ⟨"name", FieldType.string, FieldReq.optional⟩,
      ⟨"isAdmin", FieldType.boolean, (FieldReq.withDefault (JsonValue.bool false))⟩]
    endpoint := (EndpointSpec.fixed "/user.create")
    method := "POST"
    body := (some [BodyField.direct "email",
      BodyField.direct "password",
      BodyField.direct "name",
      BodyField.direct "isAdmin"])
    format := (FormatSpec.prefixed "âœ… User created successfully!\n\n") }

/-- The `list-certificates` tool declaration. -/
def listCertificatesDesc : ToolDesc :=
  { name := "list-certificates"
    title := "List SSL Certificates"
    schema := []
    endpoint := (EndpointSpec.fixed "/certificate.all")
    method := "GET"
    body := none
    format := FormatSpec.rawJson }

/-- The `create-certificate` tool declaration. -/
def createCertificateDesc : ToolDesc :=
  { name := "create-certificate"
    title := "Create SSL Certificate"
    schema := [⟨"name", FieldType.string, FieldReq.required⟩,
      ⟨"certificate", FieldType.string, FieldReq.required⟩,
      ⟨"privateKey", FieldType.string, FieldReq.required⟩]
    endpoint := (EndpointSpec.fixed "/certificate.create")
    method := "POST"
    body := (some [BodyField.direct "name",
      BodyField.direct "certificate",
      BodyField.direct "privateKey"])
    format := (FormatSpec.prefixed "âœ… SSL certificate created successfully!\n\n") }

/-- The `list-notifications` tool declaration. -/
def listNotificationsDesc : ToolDesc :=
  { name := "list-notifications"
    title := "List Notifications"
    schema := []
    endpoint := (EndpointSpec.fixed "/notification.all")
    method := "GET"
    body := none
    format := FormatSpec.rawJson }

/-- The `create-notification` tool declaration. -/
def createNotificationDesc : ToolDesc :=
  { name := "create-notification"
    title := "Create Notification"
    schema := [⟨"name", FieldType.string, FieldReq.required⟩,
      ⟨"type", (FieldType.enumOf ["discord", "slack", "telegram", "email"]), FieldReq.required⟩,
      ⟨"webhookUrl", FieldType.string, FieldReq.optional⟩,
      ⟨"botToken", FieldType.string, FieldReq.optional⟩,
      ⟨"chatId", FieldType.string, FieldReq.optional⟩,
      ⟨"smtpUrl", FieldType.string, FieldReq.optional⟩,
      ⟨"to", FieldType.string, FieldReq.optional⟩]
    endpoint := (EndpointSpec.fixed "/notification.create")
    method := "POST"
    body := (some [BodyField.direct "name",
      BodyField.direct "type",
      BodyField.direct "webhookUrl",
      BodyField.direct "botToken",
      BodyField.direct "chatId",
      BodyField.direct "smtpUrl",
      BodyField.direct "to"])
    format := (FormatSpec.prefixed "âœ… Notification created successfully!\n\n") }

/-- The `list-ssh-keys` tool declaration. -/
def listSshKeysDesc : ToolDesc :=
  { name := "list-ssh-keys"
    title := "List SSH Keys"
    schema := []
    endpoint := (EndpointSpec.fixed "/ssh-key.all")
    method := "GET"
    body := none
    format := FormatSpec.rawJson }

/-- The `create-ssh-key` tool declaration. -/
def createSshKeyDesc : ToolDesc :=
  { name := "create-ssh-key"
    title := "Create SSH Key"
    schema := [⟨"name", FieldType.string, FieldReq.required⟩,
      ⟨"description", FieldType.string, FieldReq.optional⟩,
      ⟨"privateKey", FieldType.string, FieldReq.required⟩,
      ⟨"publicKey", FieldType.string, FieldReq.optional⟩]
    endpoint := (EndpointSpec.fixed "/ssh-key.create")
    method := "POST"
    body := (some [BodyField.direct "name",
      BodyField.orDefault "description" (JsonValue.str ""),
      BodyField.direct "privateKey",
      BodyField.direct "publicKey"])
    format := (FormatSpec.prefixed "âœ… SSH key created successfully!\n\n") }

/-- The `get-settings` tool declaration. -/
def getSettingsDesc : ToolDesc :=
  { name := "get-settings"
    title := "Get System Settings"
    schema := []
    endpoint := (EndpointSpec.fixed "/settings.all")
    method := "GET"
    body := none
    format := FormatSpec.rawJson }

/-- The `update-settings` tool declaration. -/
def updateSettingsDesc : ToolDesc :=
  { name := "update-settings"
    title := "Update System Settings"
    schema := [⟨"enableDockerCleanup", FieldType.boolean, FieldReq.optional⟩,
      ⟨"enableDockerPrune", FieldType.boolean, FieldReq.optional⟩,
      ⟨"dockerCleanupInterval", FieldType.string, FieldReq.optional⟩,
      ⟨"enableStats", FieldType.boolean, FieldReq.optional⟩,
      ⟨"serverTimezone", FieldType.string, FieldReq.optional⟩]
    endpoint := (EndpointSpec.fixed "/settings.update")
    method := "POST"
    body := (some [BodyField.direct "enableDockerCleanup",
      BodyField.direct "enableDockerPrune",
      BodyField.direct "dockerCleanupInterval",
      BodyField.direct "enableStats",
      BodyField.direct "serverTimezone"])
    format := (FormatSpec.prefixed "âœ… System settings updated successfully!\n\n") }

/-- The `add-domain` tool declaration. -/
def addDomainDesc : ToolDesc :=
  { name := "add-domain"
    title := "Add Domain"
    schema := [⟨"applicationId", FieldType.string, FieldReq.required⟩,
      ⟨"domain", FieldType.string, FieldReq.required⟩,
      ⟨"enableSSL", FieldType.boolean, (FieldReq.withDefault (JsonValue.bool true))⟩]
    endpoint := (EndpointSpec.fixed "/domain.create")
    method := "POST"
    body := (some [BodyField.direct "applicationId",
      BodyField.direct "domain",
      BodyField.direct "enableSSL"])
    format := (FormatSpec.prefixed "âœ… Domain added successfully!\n\n") }

/-- The `list-domains` tool declaration. -/
def listDomainsDesc : ToolDesc :=
  { name := "list-domains"
    title := "List Domains"
    schema := [⟨"applicationId", FieldType.string, FieldReq.required⟩]
    endpoint := (EndpointSpec.withQuery "/domain.all" [("applicationId", "applicationId")])
    method := "GET"
    body := none
    format := FormatSpec.rawJson }

/-- The `create-backup` tool declaration. -/
def createBackupDesc : ToolDesc :=
  { name := "create-backup"
    title := "Create Backup"
    schema := [⟨"databaseId", FieldType.string, FieldReq.required⟩]
    endpoint := (EndpointSpec.fixed "/backup.create")
    method := "POST"
    body := (some [BodyField.direct "databaseId"])
    format := (FormatSpec.prefixed "âœ… Backup created successfully!\n\n") }

/-- The `list-backups` tool declaration. -/
def listBackupsDesc : ToolDesc :=
  { name := "list-backups"
    title := "List Backups"
    schema := [⟨"databaseId", FieldType.string, FieldReq.required⟩]
    endpoint := (EndpointSpec.withQuery "/backup.all" [("databaseId", "databaseId")])
    method := "GET"
    body := none
    format := FormatSpec.rawJson }

/-- The `restore-backup` tool declaration. -/
def restoreBackupDesc : ToolDesc :=
  { name := "restore-backup"
    title := "Restore Backup"
    schema := [⟨"backupId", FieldType.string, FieldReq.required⟩]
    endpoint := (EndpointSpec.fixed "/backup.restore")
    method := "POST"
    body := (some [BodyField.direct "backupId"])
    format := (FormatSpec.prefixed "âœ… Backup restored successfully!\n\n") }

/-- The `get-logs` tool declaration. -/
def getLogsDesc : ToolDesc :=
  { name := "get-logs"
    title := "Get Application Logs"
    schema := [⟨"applicationId", FieldType.string, FieldReq.required⟩,
      ⟨"lines", FieldType.number, (FieldReq.withDefault (JsonValue.num 100))⟩]
    endpoint := (EndpointSpec.withQuery "/application.logs" [("applicationId", "applicationId"), ("lines", "lines")])
    method := "GET"
    body := none
    format := FormatSpec.textOrJson }

/-- The `get-application-status` tool declaration. -/
def getApplicationStatusDesc : ToolDesc :=
  { name := "get-application-status"
    title := "Get Application Status"
    schema := [⟨"applicationId", FieldType.string, FieldReq.required⟩]
    endpoint := (EndpointSpec.withQuery "/application.status" [("applicationId", "applicationId")])
    method := "GET"
    body := none
    format := FormatSpec.rawJson }

/-- The `update-env-vars` tool declaration. -/
def updateEnvVarsDesc : ToolDesc :=
  { name := "update-env-vars"
    title := "Update Environment Variables"
    schema := [⟨"applicationId", FieldType.string, FieldReq.required⟩,
      ⟨"env", FieldType.recordOfString, FieldReq.required⟩]
    endpoint := (EndpointSpec.fixed "/application.updateEnv")
    method := "POST"
    body := (some [BodyField.direct "applicationId",
      BodyField.direct "env"])
    format := (FormatSpec.prefixed "âœ… Environment variables updated successfully!\n\n") }

/-- The `list-deployments` tool declaration. -/
def listDeploymentsDesc : ToolDesc :=
  { name := "list-deployments"
    title := "List Deployments"
    schema := [⟨"applicationId", FieldType.string, FieldReq.optional⟩,
      ⟨"composeId", FieldType.string, FieldReq.optional⟩]
    endpoint := EndpointSpec.deploymentAll
    method := "GET"
    body := none
    format := FormatSpec.rawJson }

/-- The `cancel-deployment` tool declaration. -/
def cancelDeploymentDesc : ToolDesc :=
  { name := "cancel-deployment"
    title := "Cancel Deployment"
    schema := [⟨"applicationId", FieldType.string, FieldReq.optional⟩,
      ⟨"composeId", FieldType.string, FieldReq.optional⟩]
    endpoint := (EndpointSpec.fixed "/deployment.cancel")
    method := "POST"
    body := (some [BodyField.direct "applicationId",
      BodyField.direct "composeId"])
    format := (FormatSpec.prefixed "âœ… Deployment cancelled successfully!\n\n") }

/-- The `list-registries` tool declaration. -/
def listRegistriesDesc : ToolDesc :=
  { name := "list-registries"
    title := "List Docker Registries"
    schema := []
    endpoint := (EndpointSpec.fixed "/registry.all")
    method := "GET"
    body := none
    format := FormatSpec.rawJson }

/-- The `create-registry` tool declaration. -/
def createRegistryDesc : ToolDesc :=
  { name := "create-registry"
    title := "Create Docker Registry"
    schema := [⟨"name", FieldType.string, FieldReq.required⟩,
      ⟨"registryUrl", FieldType.string, FieldReq.required⟩,
      ⟨"username", FieldType.string, FieldReq.optional⟩,
      ⟨"password", FieldType.string, FieldReq.optional⟩]
    endpoint := (EndpointSpec.fixed "/registry.create")
    method := "POST"
    body := (some [BodyField.direct "name",
      BodyField.direct "registryUrl",
      BodyField.direct "username",
      BodyField.direct "password"])
    format := (FormatSpec.prefixed "âœ… Docker registry created successfully!\n\n") }

/-- The `list-redirects` tool declaration. -/
def listRedirectsDesc : ToolDesc :=
  { name := "list-redirects"
    title := "List Redirects"
    schema := []
    endpoint := (EndpointSpec.fixed "/redirect.all")
    method := "GET"
    body := none
    format := FormatSpec.rawJson }

/-- The `create-redirect` tool declaration. -/
def createRedirectDesc : ToolDesc :=
  { name := "create-redirect"
    title := "Create Redirect"
    schema := [⟨"domain", FieldType.string, FieldReq.required⟩,
      ⟨"redirect", FieldType.string, FieldReq.required⟩,
      ⟨"redirectType", (FieldType.enumOf ["temporary", "permanent"]), (FieldReq.withDefault (JsonValue.str "permanent"))⟩]
    endpoint := (EndpointSpec.fixed "/redirect.create")
    method := "POST"
    body := (some [BodyField.direct "domain",
      BodyField.direct "redirect",
      BodyField.direct "redirectType"])
    format := (FormatSpec.prefixed "âœ… Redirect rule created successfully!\n\n") }

/-- The `list-schedules` tool declaration. -/
def listSchedulesDesc : ToolDesc :=
  { name := "list-schedules"
    title := "List Schedules"
    schema := []
    endpoint := (EndpointSpec.fixed "/schedule.all")
    method := "GET"
    body := none
    format := FormatSpec.rawJson }

/-- The `create-schedule` tool declaration. -/
def createScheduleDesc : ToolDesc :=
  { name := "create-schedule"
    title := "Create Schedule"
    schema := [⟨"name", FieldType.string, FieldReq.required⟩,
      ⟨"cronExpression", FieldType.string, FieldReq.required⟩,
      ⟨"applicationId", FieldType.string, FieldReq.optional⟩,
      ⟨"composeId", FieldType.string, FieldReq.optional⟩,
      ⟨"databaseId", FieldType.string, FieldReq.optional⟩,
      ⟨"enabled", FieldType.boolean, (FieldReq.withDefault (JsonValue.bool true))⟩]
    endpoint := (EndpointSpec.fixed "/schedule.create")
    method := "POST"
    body := (some [BodyField.direct "name",
      BodyField.direct "cronExpression",
      BodyField.direct "applicationId",
      BodyField.direct "composeId",
      BodyField.direct "databaseId",
      BodyField.direct "enabled"])
    format := (FormatSpec.prefixed "âœ… Schedule created successfully!\n\n") }

/-- The `list-rollbacks` tool declaration. -/
def listRollbacksDesc : ToolDesc :=
  { name := "list-rollbacks"
    title := "List Rollbacks"
    schema := [⟨"applicationId", FieldType.string, FieldReq.required⟩]
    endpoint := (EndpointSpec.withQuery "/rollbacks.all" [("applicationId", "applicationId")])
    method := "GET"
    body := none
    format := FormatSpec.rawJson }

/-- The `rollback-application` tool declaration. -/
def rollbackApplicationDesc : ToolDesc :=
  { name := "rollback-application"
    title := "Rollback Application"
    schema := [⟨"applicationId", FieldType.string, FieldReq.required⟩,
      ⟨"rollbackId", FieldType.string, FieldReq.required⟩]
    endpoint := (EndpointSpec.fixed "/rollbacks.rollback")
    method := "POST"
    body := (some [BodyField.direct "applicationId",
      BodyField.direct "rollbackId"])
    format := (FormatSpec.prefixed "âª Application rolled back successfully!\n\n") }

/-- The `list-volume-backups` tool declaration. -/
def listVolumeBackupsDesc : ToolDesc :=
  { name := "list-volume-backups"
    title := "List Volume Backups"
    schema := []
    endpoint := (EndpointSpec.fixed "/volume-backups.all")
    method := "GET"
    body := none
    format := FormatSpec.rawJson }

/-- The `create-volume-backup` tool declaration. -/
def createVolumeBackupDesc : ToolDesc :=
  { name := "create-volume-backup"
    title := "Create Volume Backup"
    schema := [⟨"name", FieldType.string, FieldReq.required⟩,
      ⟨"volumeName", FieldType.string, FieldReq.required⟩,
      ⟨"destinationPath", FieldType.string, FieldReq.optional⟩]
    endpoint := (EndpointSpec.fixed "/volume-backups.create")
    method := "POST"
    body := (some [BodyField.direct "name",
      BodyField.direct "volumeName",
      BodyField.direct "destinationPath"])
    format := (FormatSpec.prefixed "ðŸ’¾ Volume backup created successfully!\n\n") }

/-- The `list-mounts` tool declaration. -/
def listMountsDesc : ToolDesc :=
  { name := "list-mounts"
    title := "List Mounts"
    schema := []
    endpoint := (EndpointSpec.fixed "/mount.all")
    method := "GET"
    body := none
    format := FormatSpec.rawJson }

/-- The `create-mount` tool declaration. -/
def createMountDesc : ToolDesc :=
  { name := "create-mount"
    title := "Create Mount"
    schema := [⟨"name", FieldType.string, FieldReq.required⟩,
      ⟨"volumeName", FieldType.string, FieldReq.required⟩,
      ⟨"containerPath", FieldType.string, FieldReq.required⟩,
      ⟨"applicationId", FieldType.string, FieldReq.optional⟩,
      ⟨"composeId", FieldType.string, FieldReq.optional⟩]
    endpoint := (EndpointSpec.fixed "/mount.create")
    method := "POST"
    body := (some [BodyField.direct "name",
      BodyField.direct "volumeName",
      BodyField.direct "containerPath",
      BodyField.direct "applicationId",
      BodyField.direct "composeId"])
    format := (FormatSpec.prefixed "ðŸ“ Mount created successfully!\n\n") }

/-- The `list-ports` tool declaration. -/
def listPortsDesc : ToolDesc :=
  { name := "list-ports"
    title := "List Ports"
    schema := []
    endpoint := (EndpointSpec.fixed "/port.all")
    method := "GET"
    body := none
    format := FormatSpec.rawJson }

/-- The `create-port` tool declaration. -/
def createPortDesc : ToolDesc :=
  { name := "create-port"
    title := "Create Port"
    schema := [⟨"publishedPort", FieldType.number, FieldReq.required⟩,
      ⟨"targetPort", FieldType.number, FieldReq.required⟩,
      ⟨"protocol", (FieldType.enumOf ["tcp", "udp"]), (FieldReq.withDefault (JsonValue.str "tcp"))⟩,
      ⟨"applicationId", FieldType.string, FieldReq.optional⟩,
      ⟨"composeId", FieldType.string, FieldReq.optional⟩]
    endpoint := (EndpointSpec.fixed "/port.create")
    method := "POST"
    body := (some [BodyField.direct "publishedPort",
      BodyField.direct "targetPort",
      BodyField.direct "protocol",
      BodyField.direct "applicationId",
      BodyField.direct "composeId"])
    format := (FormatSpec.prefixed "ðŸ”Œ Port configuration created successfully!\n\n") }

/-- Every `registerTool` declaration of `createServer`, in source order. -/
def toolDescs : List ToolDesc :=
  [listProjectsDesc,
   createProjectDesc,
   deleteProjectDesc,
   listApplicationsDesc,
   createApplicationDesc,
   deployApplicationDesc,
   stopApplicationDesc,
   startApplicationDesc,
   restartApplicationDesc,
   deleteApplicationDesc,
   createDatabaseDesc,
   listDatabasesDesc,
   listComposesDesc,
   createComposeDesc,
   deployComposeDesc,
   stopComposeDesc,
   startComposeDesc,
   restartComposeDesc,
   deleteComposeDesc,
   getComposeLogsDesc,
   getComposeStatusDesc,
   listGitProvidersDesc,
   createGithubProviderDesc,
   createGitlabProviderDesc,
   createGiteaProviderDesc,
   createBitbucketProviderDesc,
   listServersDesc,
   createServerDesc,
   getServerStatusDesc,
   listUsersDesc,
   createUserDesc,
   listCertificatesDesc,
   createCertificateDesc,
   listNotificationsDesc,
   createNotificationDesc,
   listSshKeysDesc,
   createSshKeyDesc,
   getSettingsDesc,
   updateSettingsDesc,
   addDomainDesc,
   listDomainsDesc,
   createBackupDesc,
   listBackupsDesc,
   restoreBackupDesc,
   getLogsDesc,
   getApplicationStatusDesc,
   updateEnvVarsDesc,
   listDeploymentsDesc,
   cancelDeploymentDesc,
   listRegistriesDesc,
   createRegistryDesc,
   listRedirectsDesc,
   createRedirectDesc,
   listSchedulesDesc,
   createScheduleDesc,
   listRollbacksDesc,
   rollbackApplicationDesc,
   listVolumeBackupsDesc,
   createVolumeBackupDesc,
   listMountsDesc,
   createMountDesc,
   listPortsDesc,
   createPortDesc]

/-- The operation registry built by `createServer`: one registered tool per
declaration, built once at startup. -/
def registry : List Tool :=
  toolDescs.map mkTool

/-- A sample configuration used by concrete witnesses. -/
def sampleConfig : Config :=
  { dokployUrl := "https://dok.example", apiToken := "token-123", debug := false }

/-- An upstream that always answers 404 with body text "Not Found". -/
def notFoundUpstream : Upstream :=
  fun _ => .response { status := 404, bodyText := "Not Found", bodyJson := none }

/-- An upstream whose fetch promise always rejects (connection refused). -/
def downUpstream : Upstream :=
  fun _ => .network "connect ECONNREFUSED"

/-- An upstream that always answers 200 with the empty JSON array. -/
def emptyListUpstream : Upstream :=
  fun _ => .response { status := 200, bodyText := "[]", bodyJson := some (.arr []) }

theorem dokployRequest_network (config : Config) (e m : String) (b : Option JsonValue)
    (u : Upstream) (msg : String)
    (h : u (dokployFetchRequest config e m b) = .network msg) :
    dokployRequest config e m b u = .error (.transportError msg) := by
  unfold dokployRequest
  rw [h]

theorem dokployRequest_nonOk (config : Config) (e m : String) (b : Option JsonValue)
    (u : Upstream) (r : FetchResponse)
    (h : u (dokployFetchRequest config e m b) = .response r) (hok : r.ok = false) :
    dokployRequest config e m b u = .error (.upstreamError r.status r.bodyText) := by
  unfold dokployRequest
  rw [h]
  simp [hok]

theorem dokployRequest_ok (config : Config) (e m : String) (b : Option JsonValue)
    (u : Upstream) (r : FetchResponse)
    (h : u (dokployFetchRequest config e m b) = .response r) (hok : r.ok = true) :
    dokployRequest config e m b u =
      (match r.bodyJson with
       | some v => .ok v
       | none => .error .jsonParseError) := by
  unfold dokployRequest
  rw [h]
  simp [hok]

theorem mkTool_handler (d : ToolDesc) (args : Args) (config : Config) (u : Upstream) :
    (mkTool d).handler args config u =
      runOne config (endpointOf d.endpoint args) d.method (bodyOf d.body args)
        (formatOf d.format) u := rfl

theorem runOne_calls (config : Config) (e m : String) (b : Option JsonValue)
    (f : JsonValue → String) (u : Upstream) :
    (runOne config e m b f u).calls = [⟨e, m, b⟩] := rfl

theorem runOne_result (config : Config) (e m : String) (b : Option JsonValue)
    (f : JsonValue → String) (u : Upstream) :
    (runOne config e m b f u).result =
      (dokployRequest config e m b u).map
        (fun data => { content := [⟨"text", f data⟩] }) := rfl

theorem runOne_det (config : Config) (e m : String) (b : Option JsonValue)
    (f : JsonValue → String) (u₁ u₂ : Upstream)
    (h : u₁ (dokployFetchRequest config e m b) = u₂ (dokployFetchRequest config e m b)) :
    runOne config e m b f u₁ = runOne config e m b f u₂ := by
  unfold runOne dokployRequest
  rw [h]

/-- Claim C1: whenever the remote responds with a non-success status code,
the Transport fails with an upstream error carrying that status code and the
raw body text; accordingly, for every registered operation, an upstream
non-success response surfaces from the handler as that upstream error. -/
theorem C1_upstream_error_propagation :
    (∀ (config : Config) (e m : String) (b : Option JsonValue) (u : Upstream)
        (r : FetchResponse),
      u (dokployFetchRequest config e m b) = .response r → r.ok = false →
      dokployRequest config e m b u = .error (.upstreamError r.status r.bodyText))
  ∧ (∀ t ∈ registry, ∀ (args : Args) (config : Config) (r : FetchResponse) (u : Upstream),
      (∀ req, u req = .response r) → r.ok = false →
      (t.handler args config u).result = .error (.upstreamError r.status r.bodyText)) := by
  constructor
  · intro config e m b u r h hok
    exact dokployRequest_nonOk config e m b u r h hok
  · intro t ht args config r u hu hok
    simp only [registry] at ht
    obtain ⟨d, _, rfl⟩ := List.mem_map.mp ht
    rw [mkTool_handler, runOne_result,
      dokployRequest_nonOk _ _ _ _ _ _ (hu _) hok]
    rfl

/-- Claim C1 witness: against an upstream answering 404 "Not Found", the
Transport and the list-projects handler both fail with that upstream
error. -/
theorem C1_upstream_error_propagation_witness :
    dokployRequest sampleConfig "/project.all" "GET" none notFoundUpstream
      = .error (.upstreamError 404 "Not Found")
  ∧ ((mkTool listProjectsDesc).handler [] sampleConfig notFoundUpstream).result
      = .error (.upstreamError 404 "Not Found") :=
  ⟨C1_upstream_error_propagation.1 sampleConfig "/project.all" "GET" none
      notFoundUpstream { status := 404, bodyText := "Not Found", bodyJson := none } rfl rfl,
   C1_upstream_error_propagation.2 (mkTool listProjectsDesc)
      (by
        simp only [registry, toolDescs]
        exact List.mem_map_of_mem mkTool (List.mem_cons_self _ _))
      [] sampleConfig { status := 404, bodyText := "Not Found", bodyJson := none }
      notFoundUpstream (fun _ => rfl) rfl⟩

/-- Claim C2: whenever the fetch promise rejects (the call never reaches or
returns from the remote host), the Transport fails with a transport error;
a transport error is never equal to an upstream error; and for every
registered operation, a connection failure surfaces from the handler as that
transport error. -/
theorem C2_transport_error_propagation :
    (∀ (config : Config) (e m : String) (b : Option JsonValue) (u : Upstream)
        (msg : String),
      u (dokployFetchRequest config e m b) = .network msg →
      dokployRequest config e m b u = .error (.transportError msg))
  ∧ (∀ (msg : String) (status : Nat) (text : String),
      DokployError.transportError msg ≠ DokployError.upstreamError status text)
  ∧ (∀ t ∈ registry, ∀ (args : Args) (config : Config) (msg : String) (u : Upstream),
      (∀ req, u req = .network msg) →
      (t.handler args config u).result = .error (.transportError msg)) := by
  refine ⟨?_, ?_, ?_⟩
  · intro config e m b u msg h
    exact dokployRequest_network config e m b u msg h
  · intro msg status text h
    exact DokployError.noConfusion h
  · intro t ht args config msg u hu
    simp only [registry] at ht
    obtain ⟨d, _, rfl⟩ := List.mem_map.mp ht
    rw [mkTool_handler, runOne_result,
      dokployRequest_network _ _ _ _ _ _ (hu _)]
    rfl

/-- Claim C2 witness: against an upstream whose fetch always rejects with
"connect ECONNREFUSED", the Transport and the list-projects handler both
fail with that transport error, which differs from any upstream error. -/
theorem C2_transport_error_propagation_witness :
    dokployRequest sampleConfig "/project.all" "GET" none downUpstream
      = .error (.transportError "connect ECONNREFUSED")
  ∧ DokployError.transportError "connect ECONNREFUSED"
      ≠ DokployError.upstreamError 404 "Not Found"
  ∧ ((mkTool listProjectsDesc).handler [] sampleConfig downUpstream).result
      = .error (.transportError "connect ECONNREFUSED") :=
  ⟨C2_transport_error_propagation.1 sampleConfig "/project.all" "GET" none
      downUpstream "connect ECONNREFUSED" rfl,
   C2_transport_error_propagation.2.1 "connect ECONNREFUSED" 404 "Not Found",
   C2_transport_error_propagation.2.2 (mkTool listProjectsDesc)
      (by
        simp only [registry, toolDescs]
        exact List.mem_map_of_mem mkTool (List.mem_cons_self _ _))
      [] sampleConfig "connect ECONNREFUSED" downUpstream (fun _ => rfl)⟩

/-- Claim C3 counterexample: the number 0 is a present, JSON-serializable
body (its serialization is "0"), yet the request built by the Transport
carries no payload at all, because `body ? JSON.stringify(body) : undefined`
drops every falsy body. The claim "the body, when present, is serialized as
the JSON request payload" is therefore false as stated. -/
theorem C3_request_shape_counterexample :
    (some (JsonValue.num 0)).isSome = true
  ∧ (JsonValue.num 0).stringifyJson = some "0"
  ∧ (dokployFetchRequest sampleConfig "/project.create" "POST"
      (some (JsonValue.num 0))).body = none :=
  ⟨rfl, rfl, rfl⟩

/-- Claim C3 as amended: the request URL is `config.dokployUrl ++ "/api" ++
path`, the method is forwarded, the headers are the fixed set carrying a
content-type declaration and the configured credential in the single static
`x-api-key` header, and the body is serialized as the JSON request payload
whenever it is present and truthy (as every body an operation handler
passes is); a present but falsy body is omitted from the request. -/
theorem C3_request_shape :
    ∀ (config : Config) (e m : String) (b : Option JsonValue),
    (dokployFetchRequest config e m b).url = config.dokployUrl ++ "/api" ++ e
  ∧ (dokployFetchRequest config e m b).method = m
  ∧ (dokployFetchRequest config e m b).headers =
      [("Content-Type", "application/json"),
       ("Accept", "application/json"),
       ("x-api-key", config.apiToken)]
  ∧ (∀ v, b = some v → v.truthy = true →
      (dokployFetchRequest config e m b).body = v.stringifyJson)
  ∧ (∀ v, b = some v → v.truthy = false →
      (dokployFetchRequest config e m b).body = none)
  ∧ (b = none → (dokployFetchRequest config e m b).body = none) := by
  intro config e m b
  refine ⟨rfl, rfl, rfl, ?_, ?_, ?_⟩
  · rintro v rfl ht
    simp [dokployFetchRequest, serializeBody, ht]
  · rintro v rfl ht
    simp [dokployFetchRequest, serializeBody, ht]
  · rintro rfl
    rfl

/-- Claim C3 witness: for a concrete truthy object body, the built request
carries its compact JSON serialization as the payload. -/
theorem C3_request_shape_witness :
    (JsonValue.obj [("name", .str "demo")]).truthy = true
  ∧ (dokployFetchRequest sampleConfig "/project.create" "POST"
      (some (JsonValue.obj [("name", .str "demo")]))).body
      = (JsonValue.obj [("name", .str "demo")]).stringifyJson :=
  ⟨rfl,
   (C3_request_shape sampleConfig "/project.create" "POST"
      (some (JsonValue.obj [("name", .str "demo")]))).2.2.2.1
      (JsonValue.obj [("name", .str "demo")]) rfl rfl⟩

/-- Claim C5 counterexample: on a success status whose body is not valid
JSON ("hello, world"), the Transport does not return the raw text; it fails
with the JSON parse rejection, because the code always awaits
`response.json()` and has no raw-text fallback. -/
theorem C5_success_parse_counterexample :
    dokployRequest sampleConfig "/project.all" "GET" none
      (fun _ => .response { status := 200, bodyText := "hello, world", bodyJson := none })
      = .error .jsonParseError := rfl

/-- Claim C5 as amended: on a success status code the response body is
parsed as JSON and returned to the caller; when the body is not valid JSON
the Transport fails with the propagated JSON parse rejection instead of
returning the raw text. -/
theorem C5_success_parse :
    ∀ (config : Config) (e m : String) (b : Option JsonValue) (u : Upstream)
      (r : FetchResponse),
    u (dokployFetchRequest config e m b) = .response r → r.ok = true →
    (∀ v, r.bodyJson = some v → dokployRequest config e m b u = .ok v)
  ∧ (r.bodyJson = none → dokployRequest config e m b u = .error .jsonParseError) := by
  intro config e m b u r h hok
  constructor
  · intro v hv
    rw [dokployRequest_ok config e m b u r h hok, hv]
  · intro hv
    rw [dokployRequest_ok config e m b u r h hok, hv]

/-- Claim C5 witness: a success response carrying the JSON array `[]` is
parsed and returned as that value. -/
theorem C5_success_parse_witness :
    dokployRequest sampleConfig "/project.all" "GET" none emptyListUpstream
      = .ok (.arr []) :=
  (C5_success_parse sampleConfig "/project.all" "GET" none emptyListUpstream
      { status := 200, bodyText := "[]", bodyJson := some (.arr []) } rfl rfl).1
    (.arr []) rfl

/-- Claim C4 counterexample: invoking list-deployments (the operation whose
sub-resource identifiers are optional) with both identifiers omitted, the
handler issues exactly one Transport call, and that call is the dependent
listing call `/deployment.all` itself — no parent record is fetched first,
no default child is resolved, and the run succeeds rather than failing with
any not-found error even though the upstream holds no default child. -/
theorem C4_default_child_counterexample :
    ((mkTool listDeploymentsDesc).handler [] sampleConfig emptyListUpstream).calls
      = [⟨"/deployment.all", "GET", none⟩]
  ∧ ((mkTool listDeploymentsDesc).handler [] sampleConfig emptyListUpstream).result
      = .ok ⟨[⟨"text", "[]"⟩]⟩ :=
  ⟨rfl, rfl⟩

/-- Claim C4 as amended: the operations accepting optional sub-resource
identifiers perform no default-child resolution. When both identifiers are
omitted (or falsy), list-deployments issues exactly one GET to
`/deployment.all` with no query parameters and no body, and its outcome is
exactly the outcome of that single dependent call; no parent fetch precedes
it and no not-found failure path exists. -/
theorem C4_no_default_child_resolution :
    ∀ (args : Args) (config : Config) (u : Upstream),
    (argVal args "applicationId").truthy = false →
    (argVal args "composeId").truthy = false →
    ((mkTool listDeploymentsDesc).handler args config u).calls
      = [⟨"/deployment.all", "GET", none⟩]
  ∧ ((mkTool listDeploymentsDesc).handler args config u).result
      = (dokployRequest config "/deployment.all" "GET" none u).map
          (fun data => { content := [⟨"text", data.stringifyPretty⟩] }) := by
  intro args config u h₁ h₂
  have he : endpointOf listDeploymentsDesc.endpoint args = "/deployment.all" := by
    show listDeploymentsEndpoint args = "/deployment.all"
    unfold listDeploymentsEndpoint
    simp only [h₁, h₂]
    rfl
  constructor
  · rw [mkTool_handler, runOne_calls, he]
    rfl
  · rw [mkTool_handler, runOne_result, he]
    rfl

/-- Claim C4 witness: with the empty argument object both identifiers are
absent (hence falsy), and the handler makes the single direct listing
call. -/
theorem C4_no_default_child_resolution_witness :
    (argVal [] "applicationId").truthy = false
  ∧ (argVal [] "composeId").truthy = false
  ∧ ((mkTool listDeploymentsDesc).handler [] sampleConfig emptyListUpstream).calls
      = [⟨"/deployment.all", "GET", none⟩] :=
  ⟨rfl, rfl,
   (C4_no_default_child_resolution [] sampleConfig emptyListUpstream rfl rfl).1⟩

theorem dispatch_valid (t : Tool) (raw args : Args) (config : Config) (u : Upstream)
    (hval : validateArgs t.schema raw = .ok args) :
    dispatchTool t raw config u =
      { calls := (t.handler args config u).calls
        result :=
          match (t.handler args config u).result with
          | .ok r => .ok r
          | .error e => .apiError e } := by
  unfold dispatchTool
  rw [hval]

/-- The body the create-project handler posts for `{name: "demo"}` with the
description omitted: the destructured `description` is `undefined`, so
`description || ""` yields the empty string. -/
def demoCreateBody : JsonValue :=
  .obj [("name", .str "demo"), ("description", .str "")]

/-- Upstream simulating a successful creation echoing the created record. -/
def createdUpstream : Upstream :=
  fun _ => .response { status := 200, bodyText := "", bodyJson := some (.obj []) }

/-- Upstream simulating an authentication rejection. -/
def unauthorizedUpstream : Upstream :=
  fun _ => .response { status := 401, bodyText := "Unauthorized", bodyJson := none }

/-- Claim C6: dispatching create-project with raw arguments
`{name: "demo"}` and no description issues exactly one POST to
`/project.create` with body `{name: "demo", description: ""}`; on an
upstream success the result is the success banner followed by the pretty
JSON of the echoed created record; on an upstream 401 the call fails with
an upstream error carrying status 401 and produces no result text. -/
theorem C6_create_project_scenario :
    ∀ (config : Config) (u : Upstream),
    (dispatchTool (mkTool createProjectDesc) [("name", .str "demo")] config u).calls
      = [⟨"/project.create", "POST", some demoCreateBody⟩]
  ∧ (∀ (created : JsonValue) (text : String),
      u (dokployFetchRequest config "/project.create" "POST" (some demoCreateBody))
        = .response { status := 200, bodyText := text, bodyJson := some created } →
      (dispatchTool (mkTool createProjectDesc) [("name", .str "demo")] config u).result
        = .ok ⟨[⟨"text", "âœ… Project created successfully!\n\n"
            ++ created.stringifyPretty⟩]⟩)
  ∧ (∀ (text : String) (j : Option JsonValue),
      u (dokployFetchRequest config "/project.create" "POST" (some demoCreateBody))
        = .response { status := 401, bodyText := text, bodyJson := j } →
      (dispatchTool (mkTool createProjectDesc) [("name", .str "demo")] config u).result
        = .apiError (.upstreamError 401 text)) := by
  intro config u
  have hcall : (mkTool createProjectDesc).handler [("name", JsonValue.str "demo")] config u
      = runOne config "/project.create" "POST" (some demoCreateBody)
          (formatOf createProjectDesc.format) u := rfl
  refine ⟨?_, ?_, ?_⟩
  · rfl
  · intro created text hu
    have hd := dokployRequest_ok config "/project.create" "POST" (some demoCreateBody) u
      { status := 200, bodyText := text, bodyJson := some created } hu rfl
    rw [dispatch_valid (mkTool createProjectDesc) [("name", JsonValue.str "demo")]
        [("name", JsonValue.str "demo")] config u rfl]
    rw [hcall, runOne_result, hd]
    rfl
  · intro text j hu
    have hd := dokployRequest_nonOk config "/project.create" "POST" (some demoCreateBody) u
      { status := 401, bodyText := text, bodyJson := j } hu rfl
    rw [dispatch_valid (mkTool createProjectDesc) [("name", JsonValue.str "demo")]
        [("name", JsonValue.str "demo")] config u rfl]
    rw [hcall, runOne_result, hd]
    rfl

/-- Claim C6 witness: the concrete scenario against a success upstream
echoing the empty record and against a 401 upstream. -/
theorem C6_create_project_scenario_witness :
    (dispatchTool (mkTool createProjectDesc) [("name", .str "demo")] sampleConfig
        createdUpstream).calls
      = [⟨"/project.create", "POST", some demoCreateBody⟩]
  ∧ (dispatchTool (mkTool createProjectDesc) [("name", .str "demo")] sampleConfig
        createdUpstream).result
      = .ok ⟨[⟨"text", "âœ… Project created successfully!\n\n"
          ++ (JsonValue.obj []).stringifyPretty⟩]⟩
  ∧ (dispatchTool (mkTool createProjectDesc) [("name", .str "demo")] sampleConfig
        unauthorizedUpstream).result
      = .apiError (.upstreamError 401 "Unauthorized") :=
  ⟨(C6_create_project_scenario sampleConfig createdUpstream).1,
   (C6_create_project_scenario sampleConfig createdUpstream).2.1 (.obj []) "" rfl,
   (C6_create_project_scenario sampleConfig unauthorizedUpstream).2.2 "Unauthorized" none rfl⟩

theorem validateArgs_error_nonempty (schema : List FieldSpec) (raw : Args)
    (issues : List String) (h : validateArgs schema raw = .error issues) :
    issues ≠ [] := by
  unfold validateArgs at h
  cases hI : (schema.map (validateField raw)).filterMap
      (fun c => match c with | .error e => some e | .ok _ => none) with
  | nil =>
    rw [hI] at h
    exact absurd h (by simp)
  | cons e es =>
    rw [hI] at h
    injection h with h₁
    rw [← h₁]
    exact List.cons_ne_nil e es

/-- Claim C7: for every registered operation, raw arguments that fail the
declared input contract produce a structured validation error naming the
violated fields, the handler never runs, and no Transport call is made. -/
theorem C7_validation_before_transport :
    ∀ t ∈ registry, ∀ (raw : Args) (config : Config) (u : Upstream)
      (issues : List String),
    validateArgs t.schema raw = .error issues →
    dispatchTool t raw config u = { calls := [], result := .validationError issues }
  ∧ issues ≠ [] := by
  intro t _ raw config u issues h
  constructor
  · unfold dispatchTool
    rw [h]
  · exact validateArgs_error_nonempty t.schema raw issues h

/-- Claim C7 witness: create-project invoked with the empty raw argument
object fails validation on the required `name` field and the dispatch makes
zero Transport calls. -/
theorem C7_validation_before_transport_witness :
    validateArgs (mkTool createProjectDesc).schema [] = .error ["name: Required"]
  ∧ dispatchTool (mkTool createProjectDesc) [] sampleConfig downUpstream
      = { calls := [], result := .validationError ["name: Required"] } :=
  ⟨rfl,
   (C7_validation_before_transport (mkTool createProjectDesc)
      (by
        simp only [registry, toolDescs]
        exact List.mem_map_of_mem mkTool
          (List.mem_cons_of_mem _ (List.mem_cons_self _ _)))
      [] sampleConfig downUpstream ["name: Required"] rfl).1⟩

set_option maxHeartbeats 1000000 in
/-- Claim C8: the registry built by `createServer` is one fixed list of 63
operation descriptors, and the registered operation names are pairwise
distinct: no two `registerTool` calls use the same name. -/
theorem C8_registry_names_unique :
    (registry.map Tool.name).Nodup ∧ registry.length = 63 := by
  constructor
  · simp only [registry, List.map_map]
    decide
  · rfl

/-- Whether a registered name designates a list operation (it begins with
the `list-` prefix character sequence). -/
def isListName (s : String) : Bool :=
  match s.toList with
  | 'l' :: 'i' :: 's' :: 't' :: '-' :: _ => true
  | _ => false

/-- An upstream answering only GET requests, used to exhibit two distinct
oracles that agree on the one request a list handler issues. -/
def getOnlyUpstream : Upstream :=
  fun req =>
    if req.method = "GET" then
      .response { status := 200, bodyText := "[]", bodyJson := some (.arr []) }
    else .network "unreachable"

/-- Claim C9: every list operation is deterministic in its arguments and
the upstream response: if two upstream oracles give the same response to
the request the handler issues, the two handler runs are identical
(byte-identical output). -/
theorem C9_list_idempotent :
    ∀ t ∈ registry, isListName t.name = true →
    ∀ (args : Args) (config : Config) (u₁ u₂ : Upstream),
    (∀ c ∈ (t.handler args config u₁).calls,
      u₁ (dokployFetchRequest config c.endpoint c.method c.body)
        = u₂ (dokployFetchRequest config c.endpoint c.method c.body)) →
    t.handler args config u₁ = t.handler args config u₂ := by
  intro t ht _ args config u₁ u₂ hagree
  simp only [registry] at ht
  obtain ⟨d, _, rfl⟩ := List.mem_map.mp ht
  rw [mkTool_handler, mkTool_handler]
  apply runOne_det
  apply hagree ⟨endpointOf d.endpoint args, d.method, bodyOf d.body args⟩
  rw [mkTool_handler, runOne_calls]
  exact List.mem_singleton_self _

/-- Claim C9 witness: list-projects run against two different oracles that
agree on its one GET request yields identical runs. -/
theorem C9_list_idempotent_witness :
    isListName (mkTool listProjectsDesc).name = true
  ∧ (mkTool listProjectsDesc).handler [] sampleConfig emptyListUpstream
      = (mkTool listProjectsDesc).handler [] sampleConfig getOnlyUpstream :=
  ⟨rfl,
   C9_list_idempotent (mkTool listProjectsDesc)
     (by
       simp only [registry, toolDescs]
       exact List.mem_map_of_mem mkTool (List.mem_cons_self _ _))
     rfl [] sampleConfig emptyListUpstream getOnlyUpstream
     (by
       intro c hc
       have hc' : c = ⟨"/project.all", "GET", none⟩ := List.mem_singleton.mp hc
       rw [hc']
       rfl)⟩

/-- Claim C10: every registered tool handler, on every invocation, performs
exactly one Transport call; when it returns a result, that result contains
exactly one text content entry; and every GET call it issues carries no
request body. -/
theorem C10_handler_invariants :
    ∀ t ∈ registry, ∀ (args : Args) (config : Config) (u : Upstream),
    (t.handler args config u).calls.length = 1
  ∧ (∀ res, (t.handler args config u).result = .ok res → res.content.length = 1)
  ∧ (∀ c ∈ (t.handler args config u).calls, c.method = "GET" → c.body = none) := by
  have hGB : ∀ d ∈ toolDescs, d.method = "GET" → d.body.isNone = true := by decide
  intro t ht args config u
  simp only [registry] at ht
  obtain ⟨d, hd, rfl⟩ := List.mem_map.mp ht
  rw [mkTool_handler]
  refine ⟨?_, ?_, ?_⟩
  · rw [runOne_calls]
    rfl
  · intro res hres
    rw [runOne_result] at hres
    cases hdr : dokployRequest config (endpointOf d.endpoint args) d.method
        (bodyOf d.body args) u with
    | error e =>
      rw [hdr] at hres
      simp [Except.map] at hres
    | ok v =>
      rw [hdr] at hres
      simp only [Except.map] at hres
      injection hres with h₁
      rw [← h₁]
      rfl
  · intro c hc hm
    rw [runOne_calls] at hc
    have hc' := List.mem_singleton.mp hc
    subst hc'
    have hbn := hGB d hd hm
    cases hb : d.body with
    | none => rfl
    | some fs =>
      rw [hb] at hbn
      simp at hbn

/-- Claim C10 witness: the list-projects handler run at concrete inputs
makes one call, returns one text content entry, and its GET call has no
body. -/
theorem C10_handler_invariants_witness :
    ((mkTool listProjectsDesc).handler [] sampleConfig emptyListUpstream).calls.length = 1
  ∧ (⟨[⟨"text", "[]"⟩]⟩ : ToolResult).content.length = 1
  ∧ (∀ c ∈ ((mkTool listProjectsDesc).handler [] sampleConfig emptyListUpstream).calls,
      c.method = "GET" → c.body = none) :=
  ⟨(C10_handler_invariants (mkTool listProjectsDesc)
      (by
        simp only [registry, toolDescs]
        exact List.mem_map_of_mem mkTool (List.mem_cons_self _ _))
      [] sampleConfig emptyListUpstream).1,
   (C10_handler_invariants (mkTool listProjectsDesc)
      (by
        simp only [registry, toolDescs]
        exact List.mem_map_of_mem mkTool (List.mem_cons_self _ _))
      [] sampleConfig emptyListUpstream).2.1 ⟨[⟨"text", "[]"⟩]⟩ rfl,
   (C10_handler_invariants (mkTool listProjectsDesc)
      (by
        simp only [registry, toolDescs]
        exact List.mem_map_of_mem mkTool (List.mem_cons_self _ _))
      [] sampleConfig emptyListUpstream).2.2⟩

end Dokploy
